import Mathlib

/-!
Verification of the BharatAutoBazaar backend specification against a shallow
embedding of the Python/Django source code.

Each section embeds the relevant models, serializers and views from
`src/backend` as executable Lean definitions, then proves or refutes the
specification claims about them.  Timestamps are abstract naturals, database
tables are lists of records, and identifiers are naturals.
-/

/- ======================================================================
   OTP authentication (authentication/models.py, authentication/serializers.py)
   ====================================================================== -/

/-- Embedding of `authentication.models.OTPToken` (the fields relevant to
verification).  `expires_at` and `used_at` are abstract timestamps. -/
structure OTPToken where
  otp : String
  attempts : Nat
  max_attempts : Nat
  is_used : Bool
  used_at : Option Nat
  expires_at : Nat
deriving Repr, DecidableEq

/-- `OTPToken.is_valid`: not used, not expired, attempts not exceeded.
`now` stands for `timezone.now()`. -/
def OTPToken.is_valid (t : OTPToken) (now : Nat) : Bool :=
  !t.is_used && decide (now < t.expires_at) && decide (t.attempts < t.max_attempts)

/-- `OTPToken.verify`: increments `attempts` first, then checks `is_valid`
(on the already-incremented counter), then compares the code.  Returns the
success flag together with the saved token state. -/
def OTPToken.verify (t : OTPToken) (otp_input : String) (now : Nat) :
    Bool × OTPToken :=
  let t1 : OTPToken := { t with attempts := t.attempts + 1 }
  if !(t1.is_valid now) then (false, t1)
  else if t1.otp = otp_input then
    (true, { t1 with is_used := true, used_at := some now })
  else (false, t1)

/-- Outcome of `VerifyOTPSerializer.validate` as seen by the caller. -/
inductive VerifyOutcome where
  | success
  | attemptsExceeded
  | invalidOtp (remaining : Nat)
deriving Repr, DecidableEq

/-- Embedding of `authentication.serializers.VerifyOTPSerializer.validate`
for an existing token: calls `verify`; on failure it reports
`attemptsExceeded` when the (saved) attempt counter has reached the maximum,
else `invalidOtp` with the remaining count. -/
def VerifyOTPSerializer.validate (t : OTPToken) (otp_input : String) (now : Nat) :
    VerifyOutcome × OTPToken :=
  let r := t.verify otp_input now
  if r.1 then (VerifyOutcome.success, r.2)
  else if r.2.max_attempts ≤ r.2.attempts then (VerifyOutcome.attemptsExceeded, r.2)
  else (VerifyOutcome.invalidOtp (r.2.max_attempts - r.2.attempts), r.2)

/-- Running a sequence of `verify` calls (code, now) against a token,
threading the saved state; returns the list of success flags. -/
def runVerifies (t : OTPToken) : List (String × Nat) → List Bool
  | [] => []
  | (c, now) :: rest =>
      let r := t.verify c now
      r.1 :: runVerifies r.2 rest

/-- Helper: `verify` on an already-used token always fails and keeps the
token used. -/
theorem OTPToken.verify_used (t : OTPToken) (c : String) (now : Nat)
    (h : t.is_used = true) :
    (t.verify c now).1 = false ∧ (t.verify c now).2.is_used = true := by
  simp [OTPToken.verify, OTPToken.is_valid, h]

/-- C2 (amended): `verify` increments the attempt counter unconditionally,
and succeeds exactly when the supplied code matches the stored code while
the token is unused, unexpired, and the attempt counter AFTER the
unconditional increment is still below the configured maximum of 3 (so at
most one prior attempt may have been recorded); a wrong code counts as an
attempt. -/
theorem otp_verify_characterization (t : OTPToken) (c : String) (now : Nat)
    (hmax : t.max_attempts = 3) :
    (t.verify c now).2.attempts = t.attempts + 1 ∧
    ((t.verify c now).1 = true ↔
      (t.otp = c ∧ t.is_used = false ∧ now < t.expires_at ∧ t.attempts + 1 < 3)) := by
  constructor
  · simp only [OTPToken.verify]
    split
    · rfl
    · split <;> rfl
  · simp only [OTPToken.verify, OTPToken.is_valid, hmax]
    by_cases hu : t.is_used <;>
    by_cases he : now < t.expires_at <;>
    by_cases ha : t.attempts + 1 < 3 <;>
    by_cases hc : t.otp = c <;>
    simp [hu, he, ha, hc, hmax]

/-- Witness for C2: a fresh token (0 prior attempts) with the right code. -/
theorem otp_verify_characterization_witness :
    (OTPToken.verify ⟨"123456", 0, 3, false, none, 10⟩ "123456" 5).2.attempts = 0 + 1 ∧
    ((OTPToken.verify ⟨"123456", 0, 3, false, none, 10⟩ "123456" 5).1 = true ↔
      ("123456" = "123456" ∧ false = false ∧ 5 < 10 ∧ 0 + 1 < 3)) :=
  otp_verify_characterization _ _ _ rfl

/-- Counterexample to C2 as stated: a token that is unused, unexpired, whose
recorded attempts (2) have not reached the maximum of 3, and that is given
the correct code, still fails `verify`, because the counter is incremented
before the validity check. -/
theorem otp_verify_two_attempts_correct_code_cex :
    (({ otp := "123456", attempts := 2, max_attempts := 3, is_used := false,
        used_at := none, expires_at := 10 } : OTPToken).otp = "123456") ∧
    (({ otp := "123456", attempts := 2, max_attempts := 3, is_used := false,
        used_at := none, expires_at := 10 } : OTPToken).attempts < 3) ∧
    (OTPToken.verify
      { otp := "123456", attempts := 2, max_attempts := 3,
        is_used := false, used_at := none, expires_at := 10 } "123456" 0).1 = false := by
  decide

/-- C6: once 3 (or more) verification attempts have been recorded, a further
verify call through the serializer always reports `attemptsExceeded`,
whatever code is supplied. -/
theorem otp_attempts_exceeded_always (t : OTPToken) (c : String) (now : Nat)
    (hmax : t.max_attempts = 3) (h : 3 ≤ t.attempts) :
    (VerifyOTPSerializer.validate t c now).1 = VerifyOutcome.attemptsExceeded := by
  have hlt : ¬ (t.attempts + 1 < 3) := by omega
  have hle : 3 ≤ t.attempts + 1 := by omega
  simp [VerifyOTPSerializer.validate, OTPToken.verify, OTPToken.is_valid,
    hmax, hlt, hle]

/-- Witness for C6: 3 failed attempts recorded, the fourth call supplies the
CORRECT code and is still rejected as `attemptsExceeded`. -/
theorem otp_attempts_exceeded_always_witness :
    (VerifyOTPSerializer.validate ⟨"123456", 3, 3, false, none, 10⟩ "123456" 0).1 =
      VerifyOutcome.attemptsExceeded :=
  otp_attempts_exceeded_always _ _ _ rfl (by decide)

/-- C7: a token that has been used once never verifies successfully again:
any sequence of further verify calls, with any codes at any times, yields
only failures. -/
theorem otp_used_token_never_succeeds (t : OTPToken) (calls : List (String × Nat))
    (h : t.is_used = true) :
    runVerifies t calls = List.replicate calls.length false := by
  induction calls generalizing t with
  | nil => rfl
  | cons p rest ih =>
      obtain ⟨c, now⟩ := p
      have hv := OTPToken.verify_used t c now h
      simp only [runVerifies, List.length_cons, List.replicate_succ]
      rw [hv.1, ih _ hv.2]

/-- Witness for C7: a used token attacked twice, once with its own code. -/
theorem otp_used_token_never_succeeds_witness :
    runVerifies ⟨"111111", 0, 3, true, some 1, 100⟩ [("111111", 2), ("222222", 3)] =
      [false, false] :=
  otp_used_token_never_succeeds _ _ rfl

/- ======================================================================
   Cars and the admin moderation workflow
   (cars/models.py, cars/serializers.py, admin_panel/serializers.py,
    admin_panel/views.py)
   ====================================================================== -/

/-- Embedding of `cars.models.Car` (the fields relevant to the claims).
Identifiers are naturals; timestamps are abstract naturals. -/
structure Car where
  id : Nat
  seller : Nat
  status : String
  verified : Bool
  featured : Bool
  price : Int
  description : String
  approved_at : Option Nat
  reviewed_by : Option Nat
  reviewed_at : Option Nat
  inquiries_count : Nat
deriving Repr, DecidableEq

/-- Embedding of `admin_panel.models.CarReview` (the fields the claims
mention). -/
structure CarReview where
  car : Nat
  admin : Nat
  action : String
  reason : String
  feedback : String
  priority : String
deriving Repr, DecidableEq

/-- The JSON `metadata` attached to an `AdminActivity` row: a single-car
review carries carId/action/reason, a bulk action carries
action/carIds/processed/successful/failed. -/
inductive ActivityMetadata where
  | review (carId : Nat) (action : String) (reason : String)
  | bulk (action : String) (carIds : List Nat)
      (processed : Nat) (successful : Nat) (failed : Nat)
deriving Repr, DecidableEq

/-- Embedding of `admin_panel.models.AdminActivity`. -/
structure AdminActivity where
  admin : Option Nat
  activity_type : String
  description : String
  metadata : ActivityMetadata
  affected_car : Option Nat
  ip_address : Option String
  user_agent : String
deriving Repr, DecidableEq

/-- The mutable state the moderation views act on: the car table plus the
append-only review and activity tables. -/
structure AdminState where
  cars : List Car
  reviews : List CarReview
  activities : List AdminActivity
deriving Repr, DecidableEq

/-- `CarReview.ACTION_CHOICES` in `admin_panel/models.py`. -/
def reviewActionChoices : List String :=
  ["approve", "reject", "request_changes", "flag", "feature", "unfeature"]

/-- `CarReview.PRIORITY_CHOICES` in `admin_panel/models.py`. -/
def reviewPriorityChoices : List String :=
  ["low", "normal", "high", "urgent"]

/-- `Car.objects.get(id=car_id)` over the list-embedded table. -/
def findCar (db : List Car) (cid : Nat) : Option Car :=
  db.find? (fun c => c.id = cid)

/-- Saving one modified car row back into the table. -/
def saveCar (db : List Car) (c : Car) : List Car :=
  db.map (fun x => if x.id = c.id then c else x)

/-- The `if action == ...` chain of `ReviewCarView.post` that mutates the
car (`approve`, `reject`, `request_changes`, `feature`, `unfeature`; the
`flag` choice has no branch there and leaves the car unchanged). -/
def applyReviewAction (car : Car) (action : String) (now : Nat) : Car :=
  if action = "approve" then
    { car with status := "approved", verified := true, approved_at := some now }
  else if action = "reject" then { car with status := "rejected" }
  else if action = "request_changes" then { car with status := "pending" }
  else if action = "feature" then { car with featured := true }
  else if action = "unfeature" then { car with featured := false }
  else car

/-- The success message computed by the same chain; `none` for the `flag`
action, where the source reads an unassigned local variable (a 500 in
Python). -/
def reviewMessage (action : String) : Option String :=
  if action = "approve" then some "Car listing approved successfully"
  else if action = "reject" then some "Car listing rejected"
  else if action = "request_changes" then some "Changes requested for car listing"
  else if action = "feature" then some "Car marked as featured"
  else if action = "unfeature" then some "Car unmarked as featured"
  else none

/-- Input accepted by `ReviewCarSerializer`. -/
structure ReviewData where
  action : String
  reason : String
  feedback : String
  priority : String
deriving Repr, DecidableEq

/-- `ReviewCarSerializer.is_valid`: the action and priority must come from
the model choices. -/
def ReviewCarSerializer.isValid (d : ReviewData) : Bool :=
  d.action ∈ reviewActionChoices && d.priority ∈ reviewPriorityChoices

/-- HTTP-level outcome of `ReviewCarView.post`. -/
inductive ReviewResponse where
  | ok (message : String)
  | validationError
  | notFound
  | serverError
deriving Repr, DecidableEq

/-- Embedding of `admin_panel.views.ReviewCarView.post`: look up the car,
validate, create the `CarReview`, apply the status/flag mutation, stamp
`reviewed_by`/`reviewed_at`, save, and log an `AdminActivity` with the
actor, metadata and client IP/user-agent. -/
def ReviewCarView.post (st : AdminState) (car_id : Nat) (d : ReviewData)
    (admin : Nat) (now : Nat) (ip : Option String) (ua : String) :
    ReviewResponse × AdminState :=
  match findCar st.cars car_id with
  | none => (ReviewResponse.notFound, st)
  | some car =>
    if ReviewCarSerializer.isValid d then
      let review : CarReview :=
        { car := car.id, admin := admin, action := d.action,
          reason := d.reason, feedback := d.feedback, priority := d.priority }
      let car2 :=
        { applyReviewAction car d.action now with
            reviewed_by := some admin, reviewed_at := some now }
      let act : AdminActivity :=
        { admin := some admin,
          activity_type := "car_" ++ d.action,
          description := "Car " ++ d.action,
          metadata := ActivityMetadata.review car.id d.action d.reason,
          affected_car := some car.id,
          ip_address := ip, user_agent := ua }
      let st2 : AdminState :=
        { cars := saveCar st.cars car2,
          reviews := st.reviews ++ [review],
          activities := st.activities ++ [act] }
      match reviewMessage d.action with
      | some msg => (ReviewResponse.ok msg, st2)
      | none => (ReviewResponse.serverError, st2)
    else (ReviewResponse.validationError, st)

/-- Input accepted by `BulkActionSerializer`. -/
structure BulkData where
  action : String
  carIds : List Nat
  reason : String
deriving Repr, DecidableEq

/-- The `action` choices of `BulkActionSerializer`. -/
def bulkActionChoices : List String :=
  ["approve", "reject", "feature", "unfeature", "delete"]

/-- `BulkActionSerializer.is_valid`: the action is one of the choices, the
id list has between 1 and 100 entries, and `validate_carIds` demands that
the number of existing cars matching the ids equals the length of the list
("Some car IDs do not exist" otherwise). -/
def BulkActionSerializer.isValid (db : List Car) (d : BulkData) : Bool :=
  d.action ∈ bulkActionChoices &&
  1 ≤ d.carIds.length && d.carIds.length ≤ 100 &&
  (db.filter (fun c => c.id ∈ d.carIds)).length = d.carIds.length

/-- The per-car mutation of `BulkActionView.post` (no `request_changes`
branch exists there; `delete` removes the row instead). -/
def applyBulkAction (car : Car) (action : String) (now : Nat) : Car :=
  if action = "approve" then
    { car with status := "approved", verified := true, approved_at := some now }
  else if action = "reject" then { car with status := "rejected" }
  else if action = "feature" then { car with featured := true }
  else if action = "unfeature" then { car with featured := false }
  else car

/-- HTTP-level outcome of `BulkActionView.post`. -/
inductive BulkResponse where
  | ok (processed : Nat) (successful : Nat) (failed : Nat)
  | validationError
deriving Repr, DecidableEq

/-- Embedding of `admin_panel.views.BulkActionView.post`: if the serializer
validates, iterate over the matching cars applying the action (delete
removes the row; the others also stamp `reviewed_by`/`reviewed_at`), then
log ONE batch-level `AdminActivity`; no `CarReview` rows are written.  In
this pure embedding no per-item exception can occur, so `failed = 0`.
If the serializer rejects (e.g. some id does not exist), nothing is
processed and a validation error is returned. -/
def BulkActionView.post (st : AdminState) (d : BulkData) (admin : Nat)
    (now : Nat) (ip : Option String) (ua : String) :
    BulkResponse × AdminState :=
  if BulkActionSerializer.isValid st.cars d then
    let n := (st.cars.filter (fun c => c.id ∈ d.carIds)).length
    let newCars :=
      if d.action = "delete" then st.cars.filter (fun c => c.id ∉ d.carIds)
      else st.cars.map (fun c =>
        if c.id ∈ d.carIds then
          { applyBulkAction c d.action now with
              reviewed_by := some admin, reviewed_at := some now }
        else c)
    let act : AdminActivity :=
      { admin := some admin,
        activity_type := "bulk_action",
        description := "Bulk " ++ d.action,
        metadata := ActivityMetadata.bulk d.action d.carIds n n 0,
        affected_car := none,
        ip_address := ip, user_agent := ua }
    (BulkResponse.ok n n 0,
     { cars := newCars, reviews := st.reviews,
       activities := st.activities ++ [act] })
  else (BulkResponse.validationError, st)

/-- C1 (amended): when every id in the request exists (and the list has
between 1 and 100 entries), the bulk action processes all of them and
reports processed = successful = N with failed = 0 (no per-item exception
arises in this pure embedding); but a request containing any nonexistent
id fails serializer validation as a whole: nothing is processed, the state
is unchanged, and a validation error is returned. -/
theorem bulk_action_counts (st : AdminState) (d : BulkData) (admin : Nat)
    (now : Nat) (ip : Option String) (ua : String) :
    (BulkActionSerializer.isValid st.cars d = true →
      (BulkActionView.post st d admin now ip ua).1 =
        BulkResponse.ok d.carIds.length d.carIds.length 0) ∧
    (BulkActionSerializer.isValid st.cars d = false →
      (BulkActionView.post st d admin now ip ua).1 = BulkResponse.validationError ∧
      (BulkActionView.post st d admin now ip ua).2 = st) := by
  constructor
  · intro h
    have hn : (st.cars.filter (fun c => c.id ∈ d.carIds)).length = d.carIds.length := by
      simp only [BulkActionSerializer.isValid, Bool.and_eq_true, decide_eq_true_eq] at h
      exact h.2
    simp only [BulkActionView.post, if_pos h, hn]
  · intro h
    simp [BulkActionView.post, h]

/-- Witness for C1: two existing cars, both approved in one batch. -/
theorem bulk_action_counts_witness :
    (BulkActionView.post
      ⟨[⟨1, 5, "pending", false, false, 100000, "d", none, none, none, 0⟩,
        ⟨2, 5, "pending", false, false, 200000, "d", none, none, none, 0⟩], [], []⟩
      ⟨"approve", [1, 2], ""⟩ 7 0 none "ua").1 = BulkResponse.ok 2 2 0 :=
  (bulk_action_counts _ _ _ _ _ _).1 (by decide)

/-- Counterexample to C1 as stated: two ids, one of which does not exist.
The claim says the remaining one is processed and counts are reported; the
code rejects the whole request with a validation error and processes
nothing (the existing car keeps its `pending` status). -/
theorem bulk_action_missing_id_cex :
    (BulkActionView.post
      ⟨[⟨1, 5, "pending", false, false, 100000, "d", none, none, none, 0⟩], [], []⟩
      ⟨"approve", [1, 2], ""⟩ 7 0 none "ua").1 = BulkResponse.validationError ∧
    (BulkActionView.post
      ⟨[⟨1, 5, "pending", false, false, 100000, "d", none, none, none, 0⟩], [], []⟩
      ⟨"approve", [1, 2], ""⟩ 7 0 none "ua").2.cars =
      [⟨1, 5, "pending", false, false, 100000, "d", none, none, none, 0⟩] := by
  decide

/-- C5 (amended): a moderation transition applied through the single-car
review endpoint writes exactly one CarReview record (action, reason,
feedback, priority) and one AdminActivity entry (actor, metadata, client
IP/user-agent); a transition applied through the bulk-action endpoint
writes NO CarReview record, and a valid bulk request — however many cars
it transitions — appends exactly ONE batch-level AdminActivity entry for
the whole request. -/
theorem moderation_transition_audit (st : AdminState) (car_id : Nat)
    (d : ReviewData) (bd : BulkData) (admin : Nat) (now : Nat)
    (ip : Option String) (ua : String) (car : Car)
    (hfind : findCar st.cars car_id = some car)
    (hvalid : ReviewCarSerializer.isValid d = true) :
    (ReviewCarView.post st car_id d admin now ip ua).2.reviews =
      st.reviews ++ [{ car := car.id, admin := admin, action := d.action,
                       reason := d.reason, feedback := d.feedback,
                       priority := d.priority }] ∧
    (ReviewCarView.post st car_id d admin now ip ua).2.activities =
      st.activities ++ [{ admin := some admin,
                          activity_type := "car_" ++ d.action,
                          description := "Car " ++ d.action,
                          metadata := ActivityMetadata.review car.id d.action d.reason,
                          affected_car := some car.id,
                          ip_address := ip, user_agent := ua }] ∧
    (BulkActionView.post st bd admin now ip ua).2.reviews = st.reviews ∧
    (BulkActionSerializer.isValid st.cars bd = true →
      (BulkActionView.post st bd admin now ip ua).2.activities =
        st.activities ++ [{ admin := some admin,
                            activity_type := "bulk_action",
                            description := "Bulk " ++ bd.action,
                            metadata := ActivityMetadata.bulk bd.action bd.carIds
                              bd.carIds.length bd.carIds.length 0,
                            affected_car := none,
                            ip_address := ip, user_agent := ua }]) := by
  refine ⟨?_, ?_, ?_, ?_⟩
  · simp only [ReviewCarView.post, hfind, if_pos hvalid]
    cases hm : reviewMessage d.action <;> simp [hm]
  · simp only [ReviewCarView.post, hfind, if_pos hvalid]
    cases hm : reviewMessage d.action <;> simp [hm]
  · simp only [BulkActionView.post]
    split <;> rfl
  · intro hbv
    have hn : (st.cars.filter (fun c => c.id ∈ bd.carIds)).length =
        bd.carIds.length := by
      simp only [BulkActionSerializer.isValid, Bool.and_eq_true,
        decide_eq_true_eq] at hbv
      exact hbv.2
    simp only [BulkActionView.post, if_pos hbv, hn]

/-- Witness for C5: a concrete approve through the single-car endpoint,
and a concrete valid bulk request for the bulk conjuncts. -/
theorem moderation_transition_audit_witness :
    (ReviewCarView.post
      ⟨[⟨1, 5, "pending", false, false, 100000, "d", none, none, none, 0⟩], [], []⟩
      1 ⟨"approve", "ok", "fb", "normal"⟩ 7 9 (some "1.2.3.4") "ua").2.reviews =
      [] ++ [{ car := 1, admin := 7, action := "approve", reason := "ok",
               feedback := "fb", priority := "normal" }] ∧
    (ReviewCarView.post
      ⟨[⟨1, 5, "pending", false, false, 100000, "d", none, none, none, 0⟩], [], []⟩
      1 ⟨"approve", "ok", "fb", "normal"⟩ 7 9 (some "1.2.3.4") "ua").2.activities =
      [] ++ [{ admin := some 7, activity_type := "car_" ++ "approve",
               description := "Car " ++ "approve",
               metadata := ActivityMetadata.review 1 "approve" "ok",
               affected_car := some 1,
               ip_address := some "1.2.3.4", user_agent := "ua" }] ∧
    (BulkActionView.post
      ⟨[⟨1, 5, "pending", false, false, 100000, "d", none, none, none, 0⟩], [], []⟩
      ⟨"reject", [1], ""⟩ 7 9 (some "1.2.3.4") "ua").2.reviews = [] ∧
    (BulkActionSerializer.isValid
        [⟨1, 5, "pending", false, false, 100000, "d", none, none, none, 0⟩]
        ⟨"reject", [1], ""⟩ = true →
      (BulkActionView.post
        ⟨[⟨1, 5, "pending", false, false, 100000, "d", none, none, none, 0⟩], [], []⟩
        ⟨"reject", [1], ""⟩ 7 9 (some "1.2.3.4") "ua").2.activities =
        [] ++ [{ admin := some 7, activity_type := "bulk_action",
                 description := "Bulk " ++ "reject",
                 metadata := ActivityMetadata.bulk "reject" [1] 1 1 0,
                 affected_car := none,
                 ip_address := some "1.2.3.4", user_agent := "ua" }]) :=
  moderation_transition_audit
    ⟨[⟨1, 5, "pending", false, false, 100000, "d", none, none, none, 0⟩], [], []⟩
    1 ⟨"approve", "ok", "fb", "normal"⟩ ⟨"reject", [1], ""⟩ 7 9 (some "1.2.3.4") "ua"
    ⟨1, 5, "pending", false, false, 100000, "d", none, none, none, 0⟩
    (by decide) (by decide)

/-- Counterexample for C5 as stated: a bulk approve of TWO cars performs
the `pending → approved` transition on both, yet writes no CarReview
record at all and only a single AdminActivity entry for the whole batch
(the claim demands a CarReview and an AdminActivity per transition). -/
theorem bulk_transition_no_car_review_cex :
    (BulkActionView.post
      ⟨[⟨3, 5, "pending", false, false, 100000, "d", none, none, none, 0⟩,
        ⟨4, 5, "pending", false, false, 200000, "d", none, none, none, 0⟩], [], []⟩
      ⟨"approve", [3, 4], ""⟩ 7 11 (some "1.2.3.4") "ua").2.cars =
      [⟨3, 5, "approved", true, false, 100000, "d", some 11, some 7, some 11, 0⟩,
       ⟨4, 5, "approved", true, false, 200000, "d", some 11, some 7, some 11, 0⟩] ∧
    (BulkActionView.post
      ⟨[⟨3, 5, "pending", false, false, 100000, "d", none, none, none, 0⟩,
        ⟨4, 5, "pending", false, false, 200000, "d", none, none, none, 0⟩], [], []⟩
      ⟨"approve", [3, 4], ""⟩ 7 11 (some "1.2.3.4") "ua").2.reviews = [] ∧
    (BulkActionView.post
      ⟨[⟨3, 5, "pending", false, false, 100000, "d", none, none, none, 0⟩,
        ⟨4, 5, "pending", false, false, 200000, "d", none, none, none, 0⟩], [], []⟩
      ⟨"approve", [3, 4], ""⟩ 7 11 (some "1.2.3.4") "ua").2.activities.length = 1 := by
  decide

/-- The subset of `validated_data` accepted by `UpdateCarSerializer`
(`fields = price, description, urgency, features`; urgency/features folded
into `description`-like string data is irrelevant to the claims, price and
description suffice).  `none` means the field was absent from the update. -/
structure CarUpdateData where
  price : Option Int
  description : Option String
deriving Repr, DecidableEq

/-- Embedding of `cars.serializers.UpdateCarSerializer.update`: if a price
is present and differs from the instance's price, `validated_data` gains
`status := "pending"`; then every validated field is written onto the
instance. -/
def UpdateCarSerializer.update (car : Car) (d : CarUpdateData) : Car :=
  let status1 := match d.price with
    | some p => if p ≠ car.price then "pending" else car.status
    | none => car.status
  { car with price := d.price.getD car.price,
             description := d.description.getD car.description,
             status := status1 }

/-- C8: an update carrying a price different from the current price resets
the car's status to `pending`; an update carrying the same price leaves the
status untouched. -/
theorem price_update_resets_status (car : Car) (d : CarUpdateData) (p : Int)
    (hd : d.price = some p) :
    (p ≠ car.price → (UpdateCarSerializer.update car d).status = "pending") ∧
    (p = car.price → (UpdateCarSerializer.update car d).status = car.status) := by
  constructor <;> intro h <;> simp [UpdateCarSerializer.update, hd, h]

/-- Witness for C8: an approved car whose price changes from 100000 to
90000 drops back to `pending`. -/
theorem price_update_resets_status_witness :
    ((90000 : Int) ≠ 100000 →
      (UpdateCarSerializer.update
        ⟨1, 5, "approved", true, false, 100000, "d", some 3, some 7, some 3, 0⟩
        ⟨some 90000, none⟩).status = "pending") ∧
    ((90000 : Int) = 100000 →
      (UpdateCarSerializer.update
        ⟨1, 5, "approved", true, false, 100000, "d", some 3, some 7, some 3, 0⟩
        ⟨some 90000, none⟩).status = "approved") :=
  price_update_resets_status
    ⟨1, 5, "approved", true, false, 100000, "d", some 3, some 7, some 3, 0⟩
    ⟨some 90000, none⟩ 90000 rfl

/- ======================================================================
   Inquiries and notifications (communication/models.py,
   communication/views.py, communication/serializers.py, cars/views.py)
   ====================================================================== -/

/-- Embedding of `communication.models.Inquiry` (relevant fields). -/
structure Inquiry where
  car : Nat
  seller : Nat
  buyer : Option Nat
  buyer_name : String
  buyer_phone : String
  buyer_email : String
  message : String
  status : String
  seller_response : String
  responded_at : Option Nat
deriving Repr, DecidableEq

/-- Embedding of `communication.models.Notification` (relevant fields). -/
structure Notification where
  user : Nat
  is_read : Bool
  read_at : Option Nat
deriving Repr, DecidableEq

/-- `Notification.mark_as_read`: only an unread notification is stamped. -/
def Notification.mark_as_read (n : Notification) (now : Nat) : Notification :=
  if !n.is_read then { n with is_read := true, read_at := some now } else n

/-- C9: marking an already-read notification as read again is a no-op (in
particular `read_at` is unchanged), and mark-as-read is idempotent. -/
theorem mark_as_read_idempotent (n : Notification) (t1 t2 : Nat)
    (h : n.is_read = true) :
    n.mark_as_read t2 = n ∧
    (n.mark_as_read t1).read_at = n.read_at ∧
    ((n.mark_as_read t1).mark_as_read t2 = n.mark_as_read t1) := by
  refine ⟨?_, ?_, ?_⟩ <;> simp [Notification.mark_as_read, h]

/-- Witness for C9: a read notification stamped at time 5 stays intact. -/
theorem mark_as_read_idempotent_witness :
    Notification.mark_as_read ⟨4, true, some 5⟩ 9 = ⟨4, true, some 5⟩ ∧
    (Notification.mark_as_read ⟨4, true, some 5⟩ 8).read_at = some 5 ∧
    Notification.mark_as_read (Notification.mark_as_read ⟨4, true, some 5⟩ 8) 9 =
      Notification.mark_as_read ⟨4, true, some 5⟩ 8 :=
  mark_as_read_idempotent _ _ _ rfl

/-- HTTP-level outcome of `InquiryDetailView.retrieve`. -/
inductive RetrieveResponse where
  | ok
  | notFound
deriving Repr, DecidableEq

/-- Embedding of `communication.views.InquiryDetailView.retrieve`: the
queryset only exposes inquiries whose seller or buyer is the requesting
user; the retrieval marks a `new` inquiry `responded` when the requester
is the seller (setting the status field directly, without
`mark_as_responded`, so `responded_at` and `seller_response` are not
touched). -/
def InquiryDetailView.retrieve (inq : Inquiry) (user : Nat) :
    RetrieveResponse × Inquiry :=
  if inq.seller = user ∨ inq.buyer = some user then
    if inq.seller = user ∧ inq.status = "new" then
      (RetrieveResponse.ok, { inq with status := "responded" })
    else (RetrieveResponse.ok, inq)
  else (RetrieveResponse.notFound, inq)

/-- C10: the seller retrieving a `new` inquiry flips its status to
`responded` as a side effect while leaving `responded_at` unset and
`seller_response` empty; a retrieval by the buyer (a user distinct from
the seller) changes nothing. -/
theorem inquiry_retrieve_marks_responded (inq : Inquiry) (u v : Nat)
    (hs : inq.seller = u) (hnew : inq.status = "new")
    (hra : inq.responded_at = none) (hsr : inq.seller_response = "") :
    ((InquiryDetailView.retrieve inq u).2.status = "responded" ∧
     (InquiryDetailView.retrieve inq u).2.responded_at = none ∧
     (InquiryDetailView.retrieve inq u).2.seller_response = "") ∧
    (inq.buyer = some v → inq.seller ≠ v →
      (InquiryDetailView.retrieve inq v).2 = inq) := by
  constructor
  · simp [InquiryDetailView.retrieve, hs, hnew, hra, hsr]
  · intro hb hv
    simp [InquiryDetailView.retrieve, hb, hv]

/-- Witness for C10: seller 7 reads a fresh inquiry; buyer 9 reads it too. -/
theorem inquiry_retrieve_marks_responded_witness :
    ((InquiryDetailView.retrieve
        ⟨1, 7, some 9, "B", "+91", "b@x.com", "hi", "new", "", none⟩ 7).2.status =
          "responded" ∧
     (InquiryDetailView.retrieve
        ⟨1, 7, some 9, "B", "+91", "b@x.com", "hi", "new", "", none⟩ 7).2.responded_at =
          none ∧
     (InquiryDetailView.retrieve
        ⟨1, 7, some 9, "B", "+91", "b@x.com", "hi", "new", "", none⟩ 7).2.seller_response =
          "") ∧
    ((⟨1, 7, some 9, "B", "+91", "b@x.com", "hi", "new", "", none⟩ : Inquiry).buyer = some 9 →
      (⟨1, 7, some 9, "B", "+91", "b@x.com", "hi", "new", "", none⟩ : Inquiry).seller ≠ 9 →
      (InquiryDetailView.retrieve
        ⟨1, 7, some 9, "B", "+91", "b@x.com", "hi", "new", "", none⟩ 9).2 =
        ⟨1, 7, some 9, "B", "+91", "b@x.com", "hi", "new", "", none⟩) :=
  inquiry_retrieve_marks_responded _ _ _ rfl rfl rfl rfl

/-- Buyer contact data accepted by `CreateInquirySerializer` /
`ContactSellerSerializer`. -/
structure InquiryData where
  buyer_name : String
  buyer_phone : String
  buyer_email : String
  message : String
deriving Repr, DecidableEq

/-- HTTP-level outcome of the inquiry-creation endpoints. -/
inductive InquiryResponse where
  | ok
  | notFound
  | validationError
deriving Repr, DecidableEq

/-- Building the Inquiry row both serializers create (`status` defaults to
`new`; the registered-user link `buyer` is set only for an authenticated
request, hence optional). -/
def mkInquiry (car : Car) (d : InquiryData) (user : Option Nat) : Inquiry :=
  { car := car.id, seller := car.seller, buyer := user,
    buyer_name := d.buyer_name, buyer_phone := d.buyer_phone,
    buyer_email := d.buyer_email, message := d.message,
    status := "new", seller_response := "", responded_at := none }

/-- Embedding of `cars.views.ContactSellerView.post`:
`get_object_or_404(Car, id=car_id, status='approved')`, create the inquiry
via `ContactSellerSerializer`, then atomically increment the car's
`inquiries_count` (the admin-notification email is fire-and-forget and has
no effect on the stored state). -/
def ContactSellerView.post (db : List Car) (inqs : List Inquiry)
    (car_id : Nat) (d : InquiryData) (user : Option Nat) :
    InquiryResponse × List Car × List Inquiry :=
  match db.find? (fun c => c.id = car_id && c.status = "approved") with
  | none => (InquiryResponse.notFound, db, inqs)
  | some car =>
      let db2 := db.map (fun c =>
        if c.id = car.id then { c with inquiries_count := c.inquiries_count + 1 }
        else c)
      (InquiryResponse.ok, db2, inqs ++ [mkInquiry car d user])

/-- Embedding of `communication.views.CreateInquiryView.create` with
`CreateInquirySerializer`: `validate_car_id` requires a car with the given
id in `approved` status (else a validation error); `create` persists the
inquiry.  No counter is incremented on the car (the notification hooks are
`TODO` in the source). -/
def CreateInquiryView.create (db : List Car) (inqs : List Inquiry)
    (car_id : Nat) (d : InquiryData) (user : Option Nat) :
    InquiryResponse × List Car × List Inquiry :=
  match db.find? (fun c => c.id = car_id && c.status = "approved") with
  | none => (InquiryResponse.validationError, db, inqs)
  | some car => (InquiryResponse.ok, db, inqs ++ [mkInquiry car d user])

/-- C4 (amended): both inquiry-creation endpoints succeed exactly when the
target car exists in `approved` status, and on success persist the buyer
contact with the registered-user link optional; but only the
contact-seller endpoint increments the car's inquiry counter by one — the
communication `createInquiry` endpoint leaves every car row unchanged. -/
theorem create_inquiry_spec (db : List Car) (inqs : List Inquiry)
    (car_id : Nat) (d : InquiryData) (user : Option Nat) (car : Car)
    (hfind : db.find? (fun c => c.id = car_id && c.status = "approved") = some car) :
    ((ContactSellerView.post db inqs car_id d user).1 = InquiryResponse.ok ∧
     (ContactSellerView.post db inqs car_id d user).2.2 =
       inqs ++ [mkInquiry car d user] ∧
     (ContactSellerView.post db inqs car_id d user).2.1 =
       db.map (fun c =>
         if c.id = car.id then { c with inquiries_count := c.inquiries_count + 1 }
         else c)) ∧
    ((CreateInquiryView.create db inqs car_id d user).1 = InquiryResponse.ok ∧
     (CreateInquiryView.create db inqs car_id d user).2.2 =
       inqs ++ [mkInquiry car d user] ∧
     (CreateInquiryView.create db inqs car_id d user).2.1 = db) ∧
    (∀ db2 : List Car,
      db2.find? (fun c => c.id = car_id && c.status = "approved") = none →
      (ContactSellerView.post db2 inqs car_id d user).1 = InquiryResponse.notFound ∧
      (ContactSellerView.post db2 inqs car_id d user).2 = (db2, inqs) ∧
      (CreateInquiryView.create db2 inqs car_id d user).1 =
        InquiryResponse.validationError ∧
      (CreateInquiryView.create db2 inqs car_id d user).2 = (db2, inqs)) := by
  refine ⟨?_, ?_, ?_⟩
  · simp [ContactSellerView.post, hfind]
  · simp [CreateInquiryView.create, hfind]
  · intro db2 hnone
    simp [ContactSellerView.post, CreateInquiryView.create, hnone]

/-- Witness for C4: one approved car, an anonymous buyer. -/
theorem create_inquiry_spec_witness :
    ((ContactSellerView.post
        [⟨1, 5, "approved", true, false, 100000, "d", some 3, some 7, some 3, 0⟩]
        [] 1 ⟨"B", "+91", "b@x.com", "hi"⟩ none).1 = InquiryResponse.ok ∧
     (ContactSellerView.post
        [⟨1, 5, "approved", true, false, 100000, "d", some 3, some 7, some 3, 0⟩]
        [] 1 ⟨"B", "+91", "b@x.com", "hi"⟩ none).2.2 =
       [] ++ [mkInquiry
         ⟨1, 5, "approved", true, false, 100000, "d", some 3, some 7, some 3, 0⟩
         ⟨"B", "+91", "b@x.com", "hi"⟩ none] ∧
     (ContactSellerView.post
        [⟨1, 5, "approved", true, false, 100000, "d", some 3, some 7, some 3, 0⟩]
        [] 1 ⟨"B", "+91", "b@x.com", "hi"⟩ none).2.1 =
       List.map (fun c =>
         if c.id = (⟨1, 5, "approved", true, false, 100000, "d", some 3, some 7,
             some 3, 0⟩ : Car).id
         then { c with inquiries_count := c.inquiries_count + 1 } else c)
         [⟨1, 5, "approved", true, false, 100000, "d", some 3, some 7, some 3, 0⟩]) ∧
    ((CreateInquiryView.create
        [⟨1, 5, "approved", true, false, 100000, "d", some 3, some 7, some 3, 0⟩]
        [] 1 ⟨"B", "+91", "b@x.com", "hi"⟩ none).1 = InquiryResponse.ok ∧
     (CreateInquiryView.create
        [⟨1, 5, "approved", true, false, 100000, "d", some 3, some 7, some 3, 0⟩]
        [] 1 ⟨"B", "+91", "b@x.com", "hi"⟩ none).2.2 =
       [] ++ [mkInquiry
         ⟨1, 5, "approved", true, false, 100000, "d", some 3, some 7, some 3, 0⟩
         ⟨"B", "+91", "b@x.com", "hi"⟩ none] ∧
     (CreateInquiryView.create
        [⟨1, 5, "approved", true, false, 100000, "d", some 3, some 7, some 3, 0⟩]
        [] 1 ⟨"B", "+91", "b@x.com", "hi"⟩ none).2.1 =
       [⟨1, 5, "approved", true, false, 100000, "d", some 3, some 7, some 3, 0⟩]) ∧
    (∀ db2 : List Car,
      db2.find? (fun c => c.id = 1 && c.status = "approved") = none →
      (ContactSellerView.post db2 [] 1 ⟨"B", "+91", "b@x.com", "hi"⟩ none).1 =
        InquiryResponse.notFound ∧
      (ContactSellerView.post db2 [] 1 ⟨"B", "+91", "b@x.com", "hi"⟩ none).2 =
        (db2, []) ∧
      (CreateInquiryView.create db2 [] 1 ⟨"B", "+91", "b@x.com", "hi"⟩ none).1 =
        InquiryResponse.validationError ∧
      (CreateInquiryView.create db2 [] 1 ⟨"B", "+91", "b@x.com", "hi"⟩ none).2 =
        (db2, [])) :=
  create_inquiry_spec
    [⟨1, 5, "approved", true, false, 100000, "d", some 3, some 7, some 3, 0⟩]
    [] 1 ⟨"B", "+91", "b@x.com", "hi"⟩ none
    ⟨1, 5, "approved", true, false, 100000, "d", some 3, some 7, some 3, 0⟩
    (by decide)

/-- Counterexample to C4 as stated: the communication `createInquiry`
endpoint succeeds on an approved car yet the car's inquiry counter stays
at 0 instead of being incremented to 1. -/
theorem create_inquiry_no_increment_cex :
    (CreateInquiryView.create
      [⟨2, 5, "approved", true, false, 100000, "d", some 3, some 7, some 3, 0⟩]
      [] 2 ⟨"B", "+91", "b@x.com", "hi"⟩ (some 9)).1 = InquiryResponse.ok ∧
    (CreateInquiryView.create
      [⟨2, 5, "approved", true, false, 100000, "d", some 3, some 7, some 3, 0⟩]
      [] 2 ⟨"B", "+91", "b@x.com", "hi"⟩ (some 9)).2.2.length = 1 ∧
    (CreateInquiryView.create
      [⟨2, 5, "approved", true, false, 100000, "d", some 3, some 7, some 3, 0⟩]
      [] 2 ⟨"B", "+91", "b@x.com", "hi"⟩ (some 9)).2.1 =
      [⟨2, 5, "approved", true, false, 100000, "d", some 3, some 7, some 3, 0⟩] := by
  decide

/- ======================================================================
   EMI calculator (utils/views.py, EMICalculatorView.post)
   ====================================================================== -/

/-- Python's `round(x)` modelled over ℚ: round half to even. -/
def pyRound (q : ℚ) : ℤ :=
  if q - Int.floor q < 1/2 then Int.floor q
  else if (1 : ℚ)/2 < q - Int.floor q then Int.floor q + 1
  else if Int.floor q % 2 = 0 then Int.floor q else Int.floor q + 1

/-- Outcome of `EMICalculatorView.post` (the first-12-months breakdown is
not claimed about and is omitted). -/
inductive EMIResult where
  | validationError (message : String)
  | ok (emi : ℤ) (total_amount : ℚ) (total_interest : ℚ)
deriving DecidableEq

/-- Whether the response is a 400 validation error. -/
def EMIResult.isError : EMIResult → Bool
  | EMIResult.validationError _ => true
  | EMIResult.ok _ _ _ => false

/-- The success payload: `emi = round(raw)`, `total_amount = emi * tenure`,
`total_interest = total_amount - principal`. -/
def emiOutput (p : ℚ) (n : ℤ) (raw : ℚ) : EMIResult :=
  EMIResult.ok (pyRound raw) ((pyRound raw : ℚ) * (n : ℚ))
    ((pyRound raw : ℚ) * (n : ℚ) - p)

/-- Embedding of `utils.views.EMICalculatorView.post` on numeric JSON
inputs (`none` = field absent; the int() coercion of `tenure` is assumed
already applied).  `not all([principal, interest_rate, tenure])` treats a
numeric 0 as missing (Python falsiness), so a zero value for ANY of the
three fields is rejected by the "required" check before the positivity
check; in particular a zero interest rate never reaches the
`principal/tenure` fallback branch. -/
def EMICalculatorView.post (principal interestRate : Option ℚ)
    (tenure : Option ℤ) : EMIResult :=
  match principal, interestRate, tenure with
  | some p, some r, some n =>
      if p = 0 ∨ r = 0 ∨ n = 0 then
        EMIResult.validationError "Principal, interest rate, and tenure are required"
      else if p ≤ 0 ∨ r ≤ 0 ∨ n ≤ 0 then
        EMIResult.validationError "All parameters must be positive"
      else if 10000000 < p then
        EMIResult.validationError "Principal amount cannot exceed 1 crore"
      else if 360 < n then
        EMIResult.validationError "Tenure cannot exceed 360 months"
      else if r / 1200 = 0 then emiOutput p n (p / (n : ℚ))
      else
        emiOutput p n
          ((p * (r / 1200) * (1 + r / 1200) ^ n.toNat) /
            ((1 + r / 1200) ^ n.toNat - 1))
  | _, _, _ =>
      EMIResult.validationError "Principal, interest rate, and tenure are required"

/-- C3 (amended): for positive principal ≤ 10,000,000, positive rate and
positive tenure ≤ 360 the monthly payment is computed by the standard
amortization formula (with Python rounding); any non-positive input —
including a ZERO rate, which is rejected by the falsy "required" check
rather than degrading to principal/tenure — and any principal above
10,000,000 or tenure above 360 is rejected with a validation error. -/
theorem emi_calculator_spec (p r : ℚ) (n : ℤ) :
    (0 < p → p ≤ 10000000 → 0 < r → 0 < n → n ≤ 360 →
      EMICalculatorView.post (some p) (some r) (some n) =
        emiOutput p n
          ((p * (r / 1200) * (1 + r / 1200) ^ n.toNat) /
            ((1 + r / 1200) ^ n.toNat - 1))) ∧
    (r = 0 →
      (EMICalculatorView.post (some p) (some r) (some n)).isError = true) ∧
    (p ≤ 0 ∨ r ≤ 0 ∨ n ≤ 0 →
      (EMICalculatorView.post (some p) (some r) (some n)).isError = true) ∧
    (10000000 < p →
      (EMICalculatorView.post (some p) (some r) (some n)).isError = true) ∧
    (360 < n →
      (EMICalculatorView.post (some p) (some r) (some n)).isError = true) := by
  refine ⟨?_, ?_, ?_, ?_, ?_⟩
  · intro hp hple hr hn hnle
    have h0 : ¬(p = 0 ∨ r = 0 ∨ n = 0) := by
      push_neg; exact ⟨ne_of_gt hp, ne_of_gt hr, ne_of_gt hn⟩
    have h1 : ¬(p ≤ 0 ∨ r ≤ 0 ∨ n ≤ 0) := by
      push_neg; exact ⟨hp, hr, hn⟩
    have h2 : ¬(10000000 < p) := not_lt.mpr hple
    have h3 : ¬(360 < n) := not_lt.mpr hnle
    have hm : ¬(r / 1200 = 0) := by
      exact div_ne_zero (ne_of_gt hr) (by norm_num)
    simp only [EMICalculatorView.post]
    rw [if_neg h0, if_neg h1, if_neg h2, if_neg h3, if_neg hm]
  · intro h
    simp only [EMICalculatorView.post]
    rw [if_pos (Or.inr (Or.inl h))]
    rfl
  · intro h
    simp only [EMICalculatorView.post]
    by_cases h0 : p = 0 ∨ r = 0 ∨ n = 0
    · rw [if_pos h0]; rfl
    · rw [if_neg h0, if_pos h]; rfl
  · intro h
    simp only [EMICalculatorView.post]
    by_cases h0 : p = 0 ∨ r = 0 ∨ n = 0
    · rw [if_pos h0]; rfl
    · rw [if_neg h0]
      by_cases h1 : p ≤ 0 ∨ r ≤ 0 ∨ n ≤ 0
      · rw [if_pos h1]; rfl
      · rw [if_neg h1, if_pos h]; rfl
  · intro h
    simp only [EMICalculatorView.post]
    by_cases h0 : p = 0 ∨ r = 0 ∨ n = 0
    · rw [if_pos h0]; rfl
    · rw [if_neg h0]
      by_cases h1 : p ≤ 0 ∨ r ≤ 0 ∨ n ≤ 0
      · rw [if_pos h1]; rfl
      · rw [if_neg h1]
        by_cases h2 : 10000000 < p
        · rw [if_pos h2]; rfl
        · rw [if_neg h2, if_pos h]; rfl

/-- Witness for C3: principal 1200, annual rate 12%, tenure 1 month gives
EMI 1212, total 1212, interest 12. -/
theorem emi_calculator_spec_witness :
    EMICalculatorView.post (some 1200) (some 12) (some 1) =
      EMIResult.ok 1212 1212 12 := by
  have h := (emi_calculator_spec 1200 12 1).1 (by norm_num) (by norm_num)
    (by norm_num) (by norm_num) (by norm_num)
  rw [h]
  simp only [emiOutput, EMIResult.ok.injEq]
  norm_num [pyRound]

/-- Counterexample to C3 as stated: a zero interest rate is rejected with
a validation error ("required", via the Python falsiness check) instead of
degrading to principal/tenure. -/
theorem emi_zero_rate_rejected_cex :
    EMICalculatorView.post (some 500000) (some 0) (some 60) =
      EMIResult.validationError
        "Principal, interest rate, and tenure are required" := by
  simp [EMICalculatorView.post]
